import Mathlib

/-!
Verification of the `ddns_client` protocol core (`src/dice.rs`, `src/main.rs`)
against its natural-language specification.

The Rust code is shallowly embedded:
- `res_verify` (dice.rs:43-54): split on `' '`, parse the first field as `i32`,
  map codes 0-6 to outcomes.
- The duplex stream owned by `Client<T>` is modelled by `Conn`: the bytes still
  available to read (`rdata`), what happens once they are exhausted (`reof`:
  clean end-of-stream vs. read error), whether underlying writes succeed
  (`wok`), and the bytes that actually reached the wire (`written`).
- `recv` (dice.rs:112-124) loops on `BufRead::read_line`; the loop is embedded
  with explicit fuel (`recvFuel`), `none` meaning "has not returned within that
  many reads" — the real loop has no fuel bound, so `∀ n, recvFuel n … = none`
  models non-termination.
- `send` (dice.rs:97-110) writes through a fresh `BufWriter` that is dropped at
  the end of the call; `Drop` flushes and *discards* the flush result, so for
  frames within the writer's 8192-byte capacity the underlying write error is
  swallowed and `send` returns `Ok(())`.
- `recv_res` and `call` (dice.rs:81-90) call `.unwrap()` on the transport
  result: a transport error makes them panic, modelled by `Step.panicked`.
- `Information::new` (dice.rs:220-236) calls `.unwrap()` on the address parse;
  the panic on a bad address is modelled by `Option` (`none` = panic).
- `Ipv4Addr::from_str` is modelled by `parseIpv4`: four dot-separated groups of
  at most three ASCII digits, no leading zero, each value ≤ 255.
-/

set_option maxRecDepth 10000

/-- The six named protocol failures (`ResponseError`, dice.rs:7-15). -/
inductive ResponseError where
  | CommandError
  | LoginError
  | DbError
  | IpAddressError
  | NoConnection
  | NotFound
deriving DecidableEq, Repr

deriving instance DecidableEq for Except

/-- `Result<(), Option<ResponseError>>`, the classification result of a response
(`Ok(())` = success, `Err(Some e)` = named failure, `Err(None)` = unrecognized). -/
abbrev Verdict := Except (Option ResponseError) Unit

/-- Rust `str::split(sep)`: the (always non-empty) list of chunks between
occurrences of `sep`. -/
def splitOn (sep : Char) : List Char → List (List Char)
  | [] => [[]]
  | c :: cs =>
    if c = sep then [] :: splitOn sep cs
    else
      match splitOn sep cs with
      | [] => [[c]]
      | g :: gs => (c :: g) :: gs

/-- An all-ASCII-digit, non-empty run of characters read as a decimal `Nat`
(the digit-consuming part of Rust's integer parsing). -/
def parseDigits (cs : List Char) : Option Nat :=
  if cs ≠ [] ∧ ∀ c ∈ cs, c.isDigit then
    some (cs.foldl (fun a c => a * 10 + (c.toNat - 48)) 0)
  else none

/-- Rust `str::parse::<i32>`: optional sign, one or more ASCII digits, value
within the `i32` range; anything else fails. -/
def parseI32 (s : String) : Option Int :=
  match s.data with
  | '+' :: rest => (parseDigits rest).bind fun n =>
      if n ≤ 2147483647 then some (Int.ofNat n) else none
  | '-' :: rest => (parseDigits rest).bind fun n =>
      if n ≤ 2147483648 then some (-(Int.ofNat n)) else none
  | cs => (parseDigits cs).bind fun n =>
      if n ≤ 2147483647 then some (Int.ofNat n) else none

/-- The code→outcome table of `res_verify` (dice.rs:44-53): the match on
`parse::<i32>()`'s result. -/
def code_to_verdict (o : Option Int) : Verdict :=
  if o = some 0 then Except.ok ()
  else if o = some 1 then Except.error (some ResponseError.CommandError)
  else if o = some 2 then Except.error (some ResponseError.LoginError)
  else if o = some 3 then Except.error (some ResponseError.DbError)
  else if o = some 4 then Except.error (some ResponseError.IpAddressError)
  else if o = some 5 then Except.error (some ResponseError.NoConnection)
  else if o = some 6 then Except.error (some ResponseError.NotFound)
  else Except.error none

/-- `res_verify` (dice.rs:43-54): `res.split(' ').next().unwrap().parse::<i32>()`
matched against 0-6.  The `.unwrap()` on `next()` is kept visible: `none` would
be a panic (it never happens, see `res_verify_total`). -/
def res_verify (res : String) : Option Verdict :=
  ((splitOn ' ' res.data).head?).map fun f => code_to_verdict (parseI32 (String.mk f))

/-- Modelled from the spec's words ("split on the first space, parse the leading
field"): the first space-delimited field of a string. -/
def firstField (s : String) : String :=
  String.mk (s.data.takeWhile (fun c => c ≠ ' '))

/-- Modelled from the spec's words (§4.1 Response Taxonomy): 0 → Success, 1-6 →
the fixed order {CommandError, LoginError, DbError, IpAddressError,
NoConnection, NotFound}, anything else → Unrecognized. -/
def taxonomy (o : Option Int) : Verdict :=
  if o = some 0 then Except.ok ()
  else if o = some 1 then Except.error (some ResponseError.CommandError)
  else if o = some 2 then Except.error (some ResponseError.LoginError)
  else if o = some 3 then Except.error (some ResponseError.DbError)
  else if o = some 4 then Except.error (some ResponseError.IpAddressError)
  else if o = some 5 then Except.error (some ResponseError.NoConnection)
  else if o = some 6 then Except.error (some ResponseError.NotFound)
  else Except.error none

/-- Result of one operation on the stream: a normal return, an `io::Result`
error returned to the caller, or a thread panic (an `.unwrap()` on an `Err`). -/
inductive Step (α : Type) where
  | ok : α → Step α
  | ioErr : Step α
  | panicked : Step α
deriving DecidableEq, Repr

/-- The duplex stream owned by a `Client<T>` (dice.rs:56-62) together with what
is observable of the collaborating endpoint: `rdata` are the reply bytes still
unread, `reof` says whether reads after `rdata` see a clean end-of-stream
(`read` returns `Ok(0)`) or an I/O error, `wok` says whether underlying writes
succeed, `written` are the bytes that actually reached the wire. -/
structure Conn where
  rdata : List Char
  reof : Bool
  wok : Bool
  written : List Char
deriving DecidableEq, Repr

/-- Split off one line: the characters up to and including the first `'\n'`
(everything, if there is none), plus the remainder. -/
def takeLine : List Char → List Char × List Char
  | [] => ([], [])
  | c :: cs =>
    if c = '\n' then (['\n'], cs)
    else
      let p := takeLine cs
      (c :: p.1, p.2)

/-- `BufRead::read_line` on the modelled stream: returns a (possibly empty,
possibly unterminated) line when a full line is buffered or the stream ends
cleanly, and an I/O error when the stream errors before a newline arrives. -/
def readLine (c : Conn) : Step (List Char × Conn) :=
  if '\n' ∈ c.rdata ∨ c.reof = true then
    Step.ok ((takeLine c.rdata).1, { c with rdata := (takeLine c.rdata).2 })
  else Step.ioErr

/-- The wire frame `send` produces for a token list (dice.rs:97-110): each token
followed by `'\n'`, then the terminator line `".\n"`. -/
def frameOf : List String → List Char
  | [] => ['.', '\n']
  | t :: ts => t.data ++ '\n' :: frameOf ts

/-- Total byte size of a frame (what passes through the 8192-byte `BufWriter`). -/
def frameSize (cmd : List String) : Nat := (frameOf cmd).length

/-- `send` (dice.rs:97-110).  The tokens are written through a fresh `BufWriter`
that is dropped at the end of the call, and `Drop`'s flush discards its own
result: on a working stream the frame reaches the wire; on a broken stream a
frame within the writer's 8192-byte capacity is buffered, the call returns
`Ok(())`, and the bytes are silently lost at drop time; only a frame large
enough to force an interim flush surfaces the write error. -/
def send (c : Conn) (cmd : List String) : Step Conn :=
  if c.wok then Step.ok { c with written := c.written ++ frameOf cmd }
  else if frameSize cmd ≤ 8192 then Step.ok c
  else Step.ioErr

/-- `recv` (dice.rs:112-124): repeatedly `read_line` into the accumulating
buffer until the chunk just read is exactly `".\n"`.  The source loop is
unbounded; `n` is explicit fuel counting reads, and `none` means the loop has
not returned within `n` reads (so `∀ n, … = none` is non-termination). -/
def recvFuel : Nat → Conn → List Char → Option (Step (List Char × Conn))
  | 0, _, _ => none
  | Nat.succ n, c, buf =>
    match readLine c with
    | Step.ioErr => some Step.ioErr
    | Step.panicked => some Step.panicked
    | Step.ok (line, c1) =>
      if line = ['.', '\n'] then some (Step.ok (buf ++ line, c1))
      else recvFuel n c1 (buf ++ line)

/-- `Command::recv_res` (dice.rs:81-85): `recv` into a fresh buffer, `.unwrap()`
(a transport error becomes a panic), then `res_verify`. -/
def recv_res (n : Nat) (c : Conn) : Option (Step (Verdict × Conn)) :=
  match recvFuel n c [] with
  | none => none
  | some Step.ioErr => some Step.panicked
  | some Step.panicked => some Step.panicked
  | some (Step.ok (buf, c1)) =>
    match res_verify (String.mk buf) with
    | none => some Step.panicked
    | some v => some (Step.ok (v, c1))

/-- `Command::call` (dice.rs:87-90): `send(cmd).unwrap()` (a send error becomes
a panic) then `recv_res`. -/
def call (n : Nat) (c : Conn) (cmd : List String) : Option (Step (Verdict × Conn)) :=
  match send c cmd with
  | Step.ioErr => some Step.panicked
  | Step.panicked => some Step.panicked
  | Step.ok c1 => recv_res n c1

/-- The LOGIN command tokens built by `send_login` (dice.rs:141-145). -/
def loginCmd (user pass : String) : List String :=
  ["LOGIN", "USERID:" ++ user, "PASSWORD:" ++ pass]

/-- The MODIP command tokens built by `send_modip` (dice.rs:174-179). -/
def modipCmd (host dom ipv4 : String) : List String :=
  ["MODIP", "HOSTNAME:" ++ host, "DOMNAME:" ++ dom, "IPV4:" ++ ipv4]

/-- `send_logout` (dice.rs:136-138): `call(&["LOGOUT"])`. -/
def send_logout (n : Nat) (c : Conn) : Option (Step (Verdict × Conn)) :=
  call n c ["LOGOUT"]

/-- `send_login` (dice.rs:140-152): `call` the LOGIN command; on a protocol
failure, fire-and-forget `send(&["LOGOUT"]).unwrap()` and return the original
failure. -/
def send_login (n : Nat) (c : Conn) (user pass : String) :
    Option (Step (Verdict × Conn)) :=
  match call n c (loginCmd user pass) with
  | some (Step.ok (Except.error r, c1)) =>
    match send c1 ["LOGOUT"] with
    | Step.ok c2 => some (Step.ok (Except.error r, c2))
    | _ => some Step.panicked
  | other => other

/-- `send_modip` (dice.rs:168-186): `call` the MODIP command; on a protocol
failure, fire-and-forget `send(&["LOGOUT"]).unwrap()` and return the original
failure. -/
def send_modip (n : Nat) (c : Conn) (host dom ipv4 : String) :
    Option (Step (Verdict × Conn)) :=
  match call n c (modipCmd host dom ipv4) with
  | some (Step.ok (Except.error r, c1)) =>
    match send c1 ["LOGOUT"] with
    | Step.ok c2 => some (Step.ok (Except.error r, c2))
    | _ => some Step.panicked
  | other => other

/-- `std::net::Ipv4Addr`: four octets. -/
structure Ipv4Addr where
  o1 : Nat
  o2 : Nat
  o3 : Nat
  o4 : Nat
deriving DecidableEq, Repr

/-- `Ipv4Addr`'s `Display`/`to_string`: canonical dotted-quad text. -/
def ipv4Str (ip : Ipv4Addr) : String :=
  Nat.repr ip.o1 ++ "." ++ Nat.repr ip.o2 ++ "." ++ Nat.repr ip.o3 ++ "." ++ Nat.repr ip.o4

/-- One dotted-quad group as accepted by `Ipv4Addr::from_str`: one to three
ASCII digits, no leading zero, value at most 255. -/
def parseOctet (cs : List Char) : Option Nat :=
  if cs ≠ [] ∧ cs.length ≤ 3 ∧ (∀ c ∈ cs, c.isDigit) ∧ (1 < cs.length → cs.head? ≠ some '0') then
    let v := cs.foldl (fun a c => a * 10 + (c.toNat - 48)) 0
    if v ≤ 255 then some v else none
  else none

/-- `Ipv4Addr::from_str` (used via `ToIpAddrs`, dice.rs:193-203): exactly four
dot-separated octet groups, nothing else. -/
def parseIpv4 (s : String) : Option Ipv4Addr :=
  match splitOn '.' s.data with
  | [g1, g2, g3, g4] =>
    match parseOctet g1, parseOctet g2, parseOctet g3, parseOctet g4 with
    | some a, some b, some c, some d => some ⟨a, b, c, d⟩
    | _, _, _, _ => none
  | _ => none

/-- The `Information` credential record (dice.rs:211-218). -/
structure Information where
  user : String
  pass : String
  host : String
  dom : String
  ipaddr : Ipv4Addr
deriving DecidableEq, Repr

/-- `Information::new` (dice.rs:220-236) with a textual target address: parses
it via `ToIpAddrs` and `.unwrap()`s the result, so a bad address is a panic at
construction time, modelled by `none`. -/
def Information.new (user pass host dom ip : String) : Option Information :=
  (parseIpv4 ip).map fun a => { user, pass, host, dom, ipaddr := a }

/-- The `?`-chaining of `run_modip`: propagate fuel exhaustion, panics and
protocol failures, continue on success. -/
def andThen (x : Option (Step (Verdict × Conn)))
    (f : Conn → Option (Step (Verdict × Conn))) : Option (Step (Verdict × Conn)) :=
  match x with
  | some (Step.ok (Except.ok _, c)) => f c
  | other => other

/-- `run_modip` (dice.rs:246-251): `send_login?; send_modip?; send_logout?;
Ok(())`. -/
def run_modip (n : Nat) (c : Conn) (info : Information) :
    Option (Step (Verdict × Conn)) :=
  andThen (send_login n c info.user info.pass) fun c1 =>
    andThen (send_modip n c1 info.host info.dom (ipv4Str info.ipaddr)) fun c2 =>
      send_logout n c2

/-- The Authenticated Operation as run by `main` (main.rs:148-149): read and
classify the connection greeting (`recv_res().unwrap()` — a greeting failure is
a panic), then `run_modip`. -/
def run_update (n : Nat) (c : Conn) (info : Information) :
    Option (Step (Verdict × Conn)) :=
  match recv_res n c with
  | some (Step.ok (Except.ok _, c1)) => run_modip n c1 info
  | some (Step.ok (Except.error _, _)) => some Step.panicked
  | other => other

/-- The lines of a byte sequence: maximal chunks ending in `'\n'` (a final
unterminated chunk is its own line).  Used to state frame/line structure. -/
def linesOf : List Char → List (List Char)
  | [] => []
  | c :: cs =>
    if c = '\n' then ['\n'] :: linesOf cs
    else
      match linesOf cs with
      | [] => [[c]]
      | l :: ls => (c :: l) :: ls

/-- A concrete credential record used to instantiate universally quantified
results. -/
def infoEx : Information := ⟨"u", "p", "h", "d", ⟨1, 2, 3, 4⟩⟩

theorem splitOn_ne_nil (sep : Char) (cs : List Char) : splitOn sep cs ≠ [] := by
  induction cs with
  | nil => simp [splitOn]
  | cons c cs ih =>
    simp only [splitOn]
    split
    · simp
    · split
      · simp
      · simp

theorem splitOn_head (sep : Char) (cs : List Char) :
    (splitOn sep cs).head? = some (cs.takeWhile (fun c => c ≠ sep)) := by
  induction cs with
  | nil => rfl
  | cons c cs ih =>
    simp only [splitOn, List.takeWhile]
    by_cases h : c = sep
    · simp [h]
    · simp only [if_neg h]
      cases hs : splitOn sep cs with
      | nil => exact absurd hs (splitOn_ne_nil sep cs)
      | cons g gs =>
        rw [hs] at ih
        simp only [List.head?, Option.some.injEq] at ih ⊢
        simp [ih, h]

/-- C2: for every input string, `res_verify` classifies the first
space-delimited field per the Response Taxonomy: integer 0 → Success, 1-6 → the
named failure kinds in the fixed order {CommandError, LoginError, DbError,
IpAddressError, NoConnection, NotFound}, and a non-parsing field or any other
integer → the Unrecognized outcome `Err(None)`. -/
theorem res_verify_taxonomy (s : String) :
    res_verify s = some (taxonomy (parseI32 (firstField s))) := by
  unfold res_verify
  rw [splitOn_head]
  rfl

/-- C10: `res_verify` never panics: the split always yields a first field, so
for every input string (the empty string included) the function totally returns
a classification; the empty string classifies as Unrecognized. -/
theorem res_verify_total :
    (∀ s : String, splitOn ' ' s.data ≠ [] ∧ ∃ v, res_verify s = some v) ∧
      res_verify "" = some (Except.error none) := by
  refine ⟨fun s => ⟨splitOn_ne_nil ' ' s.data, ?_⟩, by decide⟩
  refine ⟨code_to_verdict (parseI32 (String.mk (s.data.takeWhile (fun c => c ≠ ' ')))), ?_⟩
  unfold res_verify
  rw [splitOn_head]
  rfl

theorem takeLine_newline_free (l : List Char) (h : '\n' ∉ l) (rest : List Char) :
    takeLine (l ++ '\n' :: rest) = (l ++ ['\n'], rest) := by
  induction l with
  | nil => simp [takeLine]
  | cons c l ih =>
    have hc : c ≠ '\n' := fun hc => h (hc ▸ List.mem_cons_self c l)
    have hl : '\n' ∉ l := fun hl => h (List.mem_cons_of_mem c hl)
    simp [takeLine, hc, ih hl]

theorem recvFuel_frame (ls : List String)
    (h : ∀ t ∈ ls, '\n' ∉ t.data ∧ t.data ≠ ['.'])
    (rest : List Char) (re wo : Bool) (w : List Char) (buf : List Char) :
    recvFuel (ls.length + 1) ⟨frameOf ls ++ rest, re, wo, w⟩ buf
      = some (Step.ok (buf ++ frameOf ls, ⟨rest, re, wo, w⟩)) := by
  induction ls generalizing buf with
  | nil =>
    simp [recvFuel, readLine, frameOf, takeLine]
  | cons t ts ih =>
    have ht := h t (List.mem_cons_self t ts)
    have hts : ∀ t ∈ ts, '\n' ∉ t.data ∧ t.data ≠ ['.'] :=
      fun u hu => h u (List.mem_cons_of_mem t hu)
    have hdata : frameOf (t :: ts) ++ rest = t.data ++ '\n' :: (frameOf ts ++ rest) := by
      simp [frameOf]
    have hline : t.data ++ ['\n'] ≠ ['.', '\n'] := by
      intro heq
      exact ht.2 (List.append_cancel_right heq)
    have hmem : '\n' ∈ frameOf (t :: ts) ++ rest := by
      rw [hdata]; simp
    show recvFuel (ts.length + 1 + 1) ⟨frameOf (t :: ts) ++ rest, re, wo, w⟩ buf = _
    rw [recvFuel]
    rw [show readLine ⟨frameOf (t :: ts) ++ rest, re, wo, w⟩
        = Step.ok (t.data ++ ['\n'], ⟨frameOf ts ++ rest, re, wo, w⟩) by
      unfold readLine
      rw [if_pos (Or.inl hmem)]
      simp only [hdata]
      rw [takeLine_newline_free t.data ht.1 (frameOf ts ++ rest)]]
    simp only [hline, if_false]
    rw [ih hts (buf ++ (t.data ++ ['\n']))]
    simp [frameOf, List.append_assoc]

theorem recvFuel_mono {n m : Nat} (hnm : n ≤ m) (c : Conn) (buf : List Char)
    (r : Step (List Char × Conn)) (hr : recvFuel n c buf = some r) :
    recvFuel m c buf = some r := by
  induction n generalizing m c buf with
  | zero => exact absurd hr (by simp [recvFuel])
  | succ n ih =>
    obtain ⟨m', rfl⟩ : ∃ m', m = m' + 1 := ⟨m - 1, by omega⟩
    rw [recvFuel] at hr ⊢
    cases hl : readLine c with
    | ioErr => rw [hl] at hr; exact hr
    | panicked => rw [hl] at hr; exact hr
    | ok p =>
      rw [hl] at hr
      by_cases ht : p.1 = ['.', '\n']
      · simp only [ht, if_true] at hr ⊢; exact hr
      · simp only [ht, if_false] at hr ⊢
        exact ih (by omega) _ _ hr

theorem send_ok (c : Conn) (cmd : List String)
    (h : c.wok = true ∨ frameSize cmd ≤ 8192) :
    send c cmd = Step.ok { c with written := c.written ++ if c.wok then frameOf cmd else [] } := by
  obtain ⟨rd, re, wo, wr⟩ := c
  unfold send
  cases wo with
  | true => simp
  | false =>
    have hs : frameSize cmd ≤ 8192 := h.resolve_left (by simp)
    simp [hs]

theorem recv_res_frame (ls : List String)
    (h : ∀ t ∈ ls, '\n' ∉ t.data ∧ t.data ≠ ['.'])
    (v : Verdict) (hv : res_verify (String.mk (frameOf ls)) = some v)
    (rest : List Char) (re wo : Bool) (w : List Char)
    (n : Nat) (hn : ls.length + 1 ≤ n) :
    recv_res n ⟨frameOf ls ++ rest, re, wo, w⟩ = some (Step.ok (v, ⟨rest, re, wo, w⟩)) := by
  unfold recv_res
  rw [recvFuel_mono hn _ _ _ (recvFuel_frame ls h rest re wo w [])]
  simp [hv]

theorem call_frame (ls : List String)
    (h : ∀ t ∈ ls, '\n' ∉ t.data ∧ t.data ≠ ['.'])
    (v : Verdict) (hv : res_verify (String.mk (frameOf ls)) = some v)
    (cmd : List String) (rest : List Char) (re wo : Bool) (w : List Char)
    (n : Nat) (hn : ls.length + 1 ≤ n)
    (hs : wo = true ∨ frameSize cmd ≤ 8192) :
    call n ⟨frameOf ls ++ rest, re, wo, w⟩ cmd
      = some (Step.ok (v, ⟨rest, re, wo, w ++ if wo then frameOf cmd else []⟩)) := by
  unfold call
  rw [send_ok ⟨frameOf ls ++ rest, re, wo, w⟩ cmd hs]
  exact recv_res_frame ls h v hv rest re wo _ n hn

theorem andThen_ok (c : Conn) (f : Conn → Option (Step (Verdict × Conn))) :
    andThen (some (Step.ok (Except.ok (), c))) f = f c := rfl

theorem andThen_err (e : Option ResponseError) (c : Conn)
    (f : Conn → Option (Step (Verdict × Conn))) :
    andThen (some (Step.ok (Except.error e, c))) f = some (Step.ok (Except.error e, c)) := rfl

theorem send_login_ok (n : Nat) (c : Conn) (user pass : String) (c1 : Conn)
    (h : call n c (loginCmd user pass) = some (Step.ok (Except.ok (), c1))) :
    send_login n c user pass = some (Step.ok (Except.ok (), c1)) := by
  unfold send_login
  rw [h]

theorem send_login_err (n : Nat) (c : Conn) (user pass : String)
    (e : Option ResponseError) (c1 c2 : Conn)
    (h : call n c (loginCmd user pass) = some (Step.ok (Except.error e, c1)))
    (h2 : send c1 ["LOGOUT"] = Step.ok c2) :
    send_login n c user pass = some (Step.ok (Except.error e, c2)) := by
  unfold send_login
  rw [h]
  simp [h2]

theorem send_modip_ok (n : Nat) (c : Conn) (host dom ipv4 : String) (c1 : Conn)
    (h : call n c (modipCmd host dom ipv4) = some (Step.ok (Except.ok (), c1))) :
    send_modip n c host dom ipv4 = some (Step.ok (Except.ok (), c1)) := by
  unfold send_modip
  rw [h]

theorem send_modip_err (n : Nat) (c : Conn) (host dom ipv4 : String)
    (e : Option ResponseError) (c1 c2 : Conn)
    (h : call n c (modipCmd host dom ipv4) = some (Step.ok (Except.error e, c1)))
    (h2 : send c1 ["LOGOUT"] = Step.ok c2) :
    send_modip n c host dom ipv4 = some (Step.ok (Except.error e, c2)) := by
  unfold send_modip
  rw [h]
  simp [h2]

theorem recvFuel_eof_empty (n : Nat) (w : Bool) (wr buf : List Char) :
    recvFuel n ⟨[], true, w, wr⟩ buf = none := by
  induction n generalizing buf with
  | zero => rfl
  | succ n ih => simpa [recvFuel, readLine, takeLine] using ih buf

/-- C6: on a stream that ends cleanly (EOF) before a line equal to "." has been
read — e.g. the bytes "A\n" followed by end-of-stream — `recv` never returns:
`read_line` keeps returning `Ok(0)`, the appended chunk is never ".\n", and the
loop spins forever (no fuel bound suffices).  The spec instead requires a
transport error here, so the code is at fault. -/
theorem recv_eof_loops (n : Nat) (w : Bool) (wr buf : List Char) :
    recvFuel n ⟨"A\n".data, true, w, wr⟩ buf = none := by
  cases n with
  | zero => rfl
  | succ n =>
    calc recvFuel (n + 1) ⟨"A\n".data, true, w, wr⟩ buf
        = recvFuel n ⟨[], true, w, wr⟩ (buf ++ ['A', '\n']) := rfl
      _ = none := recvFuel_eof_empty n w wr (buf ++ ['A', '\n'])

theorem call_frame_w (ls : List String)
    (h : ∀ t ∈ ls, '\n' ∉ t.data ∧ t.data ≠ ['.'])
    (v : Verdict) (hv : res_verify (String.mk (frameOf ls)) = some v)
    (cmd : List String) (rest : List Char) (re : Bool) (w : List Char)
    (n : Nat) (hn : ls.length + 1 ≤ n) :
    call n ⟨frameOf ls ++ rest, re, true, w⟩ cmd
      = some (Step.ok (v, ⟨rest, re, true, w ++ frameOf cmd⟩)) := by
  have := call_frame ls h v hv cmd rest re true w n hn (Or.inl rfl)
  simpa using this

/-- C1: rollback policy of the Authenticated Operation.  On every stream whose
LOGIN reply classifies as Success and whose MODIP reply classifies as a failure
(`e`, e.g. `DbError` for a leading code 3), `run_modip` still transmits a
LOGOUT frame on the stream and returns that MODIP failure as its final result,
not the outcome of the LOGOUT. -/
theorem run_modip_rollback (lrep mrep : List String)
    (hl : ∀ t ∈ lrep, '\n' ∉ t.data ∧ t.data ≠ ['.'])
    (hm : ∀ t ∈ mrep, '\n' ∉ t.data ∧ t.data ≠ ['.'])
    (hL : res_verify (String.mk (frameOf lrep)) = some (Except.ok ()))
    (e : Option ResponseError)
    (hM : res_verify (String.mk (frameOf mrep)) = some (Except.error e))
    (rest : List Char) (re : Bool) (w : List Char) (info : Information)
    (n : Nat) (hn1 : lrep.length + 1 ≤ n) (hn2 : mrep.length + 1 ≤ n) :
    run_modip n ⟨frameOf lrep ++ (frameOf mrep ++ rest), re, true, w⟩ info
      = some (Step.ok (Except.error e,
          ⟨rest, re, true,
            ((w ++ frameOf (loginCmd info.user info.pass))
                ++ frameOf (modipCmd info.host info.dom (ipv4Str info.ipaddr)))
              ++ frameOf ["LOGOUT"]⟩)) := by
  have h1 := call_frame_w lrep hl _ hL (loginCmd info.user info.pass)
      (frameOf mrep ++ rest) re w n hn1
  have h2 := call_frame_w mrep hm _ hM
      (modipCmd info.host info.dom (ipv4Str info.ipaddr))
      rest re (w ++ frameOf (loginCmd info.user info.pass)) n hn2
  have h3 : send ⟨rest, re, true,
        (w ++ frameOf (loginCmd info.user info.pass))
          ++ frameOf (modipCmd info.host info.dom (ipv4Str info.ipaddr))⟩ ["LOGOUT"]
      = Step.ok ⟨rest, re, true,
          ((w ++ frameOf (loginCmd info.user info.pass))
              ++ frameOf (modipCmd info.host info.dom (ipv4Str info.ipaddr)))
            ++ frameOf ["LOGOUT"]⟩ := by
    simp [send]
  unfold run_modip
  rw [send_login_ok _ _ _ _ _ h1]
  simp only [andThen_ok]
  rw [send_modip_err _ _ _ _ _ _ _ _ h2 h3]
  simp only [andThen_err]

/-- Concrete instance of `run_modip_rollback`: LOGIN reply "0 ok", MODIP reply
"3 fail" (code 3 → DbError), LOGOUT frame still written, DbError returned. -/
theorem run_modip_rollback_witness :
    run_modip 2 ⟨frameOf ["0 ok"] ++ (frameOf ["3 fail"] ++ []), true, true, []⟩ infoEx
      = some (Step.ok (Except.error (some ResponseError.DbError),
          ⟨[], true, true,
            (([] ++ frameOf (loginCmd infoEx.user infoEx.pass))
                ++ frameOf (modipCmd infoEx.host infoEx.dom (ipv4Str infoEx.ipaddr)))
              ++ frameOf ["LOGOUT"]⟩)) :=
  run_modip_rollback ["0 ok"] ["3 fail"] (by decide) (by decide) (by decide)
    (some ResponseError.DbError) (by decide) [] true [] infoEx 2 (by decide) (by decide)

theorem run_modip_success (lrep mrep orep : List String)
    (hl : ∀ t ∈ lrep, '\n' ∉ t.data ∧ t.data ≠ ['.'])
    (hm : ∀ t ∈ mrep, '\n' ∉ t.data ∧ t.data ≠ ['.'])
    (ho : ∀ t ∈ orep, '\n' ∉ t.data ∧ t.data ≠ ['.'])
    (hL : res_verify (String.mk (frameOf lrep)) = some (Except.ok ()))
    (hM : res_verify (String.mk (frameOf mrep)) = some (Except.ok ()))
    (v : Verdict) (hO : res_verify (String.mk (frameOf orep)) = some v)
    (rest : List Char) (re : Bool) (w : List Char) (info : Information)
    (n : Nat) (hn1 : lrep.length + 1 ≤ n) (hn2 : mrep.length + 1 ≤ n)
    (hn3 : orep.length + 1 ≤ n) :
    run_modip n ⟨frameOf lrep ++ (frameOf mrep ++ (frameOf orep ++ rest)), re, true, w⟩ info
      = some (Step.ok (v,
          ⟨rest, re, true,
            ((w ++ frameOf (loginCmd info.user info.pass))
                ++ frameOf (modipCmd info.host info.dom (ipv4Str info.ipaddr)))
              ++ frameOf ["LOGOUT"]⟩)) := by
  have h1 := call_frame_w lrep hl _ hL (loginCmd info.user info.pass)
      (frameOf mrep ++ (frameOf orep ++ rest)) re w n hn1
  have h2 := call_frame_w mrep hm _ hM
      (modipCmd info.host info.dom (ipv4Str info.ipaddr))
      (frameOf orep ++ rest) re (w ++ frameOf (loginCmd info.user info.pass)) n hn2
  unfold run_modip
  rw [send_login_ok _ _ _ _ _ h1]
  simp only [andThen_ok]
  rw [send_modip_ok _ _ _ _ _ _ h2]
  simp only [andThen_ok]
  unfold send_logout
  exact call_frame_w orep ho v hO ["LOGOUT"] rest re _ n hn3

/-- C3: full success scenario.  On a stream whose greeting, LOGIN, MODIP and
LOGOUT replies are "0 hi\n.\n", "0 ok\n.\n", "0 ok\n.\n", "0 bye\n.\n" (all
leading code 0), the Authenticated Operation (greeting read followed by
`run_modip`) returns success; exactly four frames are exchanged — the greeting
read plus the LOGIN, MODIP, LOGOUT round-trips in that order — the reply bytes
are fully consumed and nothing but those three command frames is written. -/
theorem run_update_success (info : Information) (re : Bool) :
    run_update 2 ⟨"0 hi\n.\n0 ok\n.\n0 ok\n.\n0 bye\n.\n".data, re, true, []⟩ info
      = some (Step.ok (Except.ok (),
          ⟨[], re, true,
            (frameOf (loginCmd info.user info.pass)
                ++ frameOf (modipCmd info.host info.dom (ipv4Str info.ipaddr)))
              ++ frameOf ["LOGOUT"]⟩)) := by
  have hd : ("0 hi\n.\n0 ok\n.\n0 ok\n.\n0 bye\n.\n").data
      = frameOf ["0 hi"]
          ++ (frameOf ["0 ok"] ++ (frameOf ["0 ok"] ++ (frameOf ["0 bye"] ++ []))) := by
    decide
  unfold run_update
  rw [hd]
  rw [recv_res_frame ["0 hi"] (by decide) (Except.ok ()) (by decide) _ re true [] 2 (by decide)]
  have hs := run_modip_success ["0 ok"] ["0 ok"] ["0 bye"] (by decide) (by decide) (by decide)
      (by decide) (by decide) (Except.ok ()) (by decide) [] re [] info 2
      (by decide) (by decide) (by decide)
  simpa using hs

/-- C7: fire-and-forget cleanup.  Whenever the LOGIN (resp. MODIP) reply
classifies as a failure `e`, the cleanup LOGOUT is only written — no response
to it is read or classified (the reply bytes after the failing reply are left
untouched) — and the original failure `e` is what the operation returns; this
holds even when the underlying writes fail (`wo = false`), so a failing cleanup
send never masks or replaces the original error. -/
theorem cleanup_fire_and_forget (rep : List String)
    (h : ∀ t ∈ rep, '\n' ∉ t.data ∧ t.data ≠ ['.'])
    (e : Option ResponseError)
    (hv : res_verify (String.mk (frameOf rep)) = some (Except.error e))
    (rest : List Char) (re wo : Bool) (w : List Char)
    (user pass host dom ipv4 : String) (n : Nat) (hn : rep.length + 1 ≤ n)
    (hs1 : wo = true ∨ frameSize (loginCmd user pass) ≤ 8192)
    (hs2 : wo = true ∨ frameSize (modipCmd host dom ipv4) ≤ 8192) :
    send_login n ⟨frameOf rep ++ rest, re, wo, w⟩ user pass
      = some (Step.ok (Except.error e,
          ⟨rest, re, wo,
            (w ++ (if wo then frameOf (loginCmd user pass) else []))
              ++ (if wo then frameOf ["LOGOUT"] else [])⟩))
    ∧ send_modip n ⟨frameOf rep ++ rest, re, wo, w⟩ host dom ipv4
      = some (Step.ok (Except.error e,
          ⟨rest, re, wo,
            (w ++ (if wo then frameOf (modipCmd host dom ipv4) else []))
              ++ (if wo then frameOf ["LOGOUT"] else [])⟩)) := by
  have hc1 := call_frame rep h _ hv (loginCmd user pass) rest re wo w n hn hs1
  have hc2 := call_frame rep h _ hv (modipCmd host dom ipv4) rest re wo w n hn hs2
  have hlo1 := send_ok ⟨rest, re, wo, w ++ (if wo then frameOf (loginCmd user pass) else [])⟩
      ["LOGOUT"] (Or.inr (by decide))
  have hlo2 := send_ok ⟨rest, re, wo, w ++ (if wo then frameOf (modipCmd host dom ipv4) else [])⟩
      ["LOGOUT"] (Or.inr (by decide))
  exact ⟨send_login_err n _ user pass e _ _ hc1 hlo1,
    send_modip_err n _ host dom ipv4 e _ _ hc2 hlo2⟩

/-- Concrete instance of `cleanup_fire_and_forget`: LOGIN/MODIP reply "2 no"
(LoginError) on a stream whose writes fail; the original LoginError is still
returned and nothing further is read. -/
theorem cleanup_fire_and_forget_witness :
    send_login 2 ⟨frameOf ["2 no"] ++ [], true, false, []⟩ "u" "p"
      = some (Step.ok (Except.error (some ResponseError.LoginError),
          ⟨[], true, false,
            ([] ++ (if false then frameOf (loginCmd "u" "p") else []))
              ++ (if false then frameOf ["LOGOUT"] else [])⟩))
    ∧ send_modip 2 ⟨frameOf ["2 no"] ++ [], true, false, []⟩ "h" "d" "1.2.3.4"
      = some (Step.ok (Except.error (some ResponseError.LoginError),
          ⟨[], true, false,
            ([] ++ (if false then frameOf (modipCmd "h" "d" "1.2.3.4") else []))
              ++ (if false then frameOf ["LOGOUT"] else [])⟩)) :=
  cleanup_fire_and_forget ["2 no"] (by decide) (some ResponseError.LoginError) (by decide)
    [] true false [] "u" "p" "h" "d" "1.2.3.4" 2 (by decide)
    (Or.inr (by decide)) (Or.inr (by decide))

theorem linesOf_line (l : List Char) (h : '\n' ∉ l) (cs : List Char) :
    linesOf (l ++ '\n' :: cs) = (l ++ ['\n']) :: linesOf cs := by
  induction l with
  | nil => simp [linesOf]
  | cons c l ih =>
    have hc : c ≠ '\n' := fun hc => h (hc ▸ List.mem_cons_self c l)
    have hl : '\n' ∉ l := fun hl => h (List.mem_cons_of_mem c hl)
    simp [linesOf, hc, ih hl]

theorem linesOf_frame (ts : List String) (h : ∀ t ∈ ts, '\n' ∉ t.data) :
    linesOf (frameOf ts) = ts.map (fun t => t.data ++ ['\n']) ++ [['.', '\n']] := by
  induction ts with
  | nil => decide
  | cons t ts ih =>
    have ht := h t (List.mem_cons_self t ts)
    have hts : ∀ u ∈ ts, '\n' ∉ u.data := fun u hu => h u (List.mem_cons_of_mem t hu)
    simp only [frameOf, linesOf_line t.data ht (frameOf ts), ih hts, List.map_cons,
      List.cons_append]

/-- C4 counterexample: the token "A\n." is not equal to "." yet breaks the
round-trip as claimed: `send` emits three wire lines for this single token
(its embedded newline plus the terminator), and feeding the written bytes back
through `recv` stops at the token's own "." line, so the accumulated buffer is
not the full set of written lines — bytes are left over. -/
theorem send_recv_roundtrip_cex :
    (("A\n." : String) ≠ ".") ∧
    send ⟨[], true, true, []⟩ ["A\n."] = Step.ok ⟨[], true, true, "A\n.\n.\n".data⟩ ∧
    linesOf "A\n.\n.\n".data = [['A', '\n'], ['.', '\n'], ['.', '\n']] ∧
    recvFuel 3 ⟨"A\n.\n.\n".data, true, true, []⟩ []
      = some (Step.ok ("A\n.\n".data, ⟨".\n".data, true, true, []⟩)) ∧
    ("A\n.\n".data ≠ "A\n.\n.\n".data) := by
  decide

/-- C4 (amended: the tokens must also contain no line break): for every list of
newline-free tokens none of which equals ".", `send` writes exactly one line
per token followed by a final line containing only ".", and feeding those
written bytes back through `recv` accumulates exactly those lines, ending in
the "." line, consuming the whole frame. -/
theorem send_recv_roundtrip (ts : List String)
    (h : ∀ t ∈ ts, '\n' ∉ t.data ∧ t.data ≠ ['.'])
    (re : Bool) (w : List Char) :
    send ⟨[], re, true, w⟩ ts = Step.ok ⟨[], re, true, w ++ frameOf ts⟩ ∧
    linesOf (frameOf ts) = ts.map (fun t => t.data ++ ['\n']) ++ [['.', '\n']] ∧
    recvFuel (ts.length + 1) ⟨frameOf ts, re, true, []⟩ []
      = some (Step.ok (frameOf ts, ⟨[], re, true, []⟩)) := by
  refine ⟨by simp [send], linesOf_frame ts (fun t ht => (h t ht).1), ?_⟩
  have := recvFuel_frame ts h [] re true [] []
  simpa using this

/-- Concrete instance of `send_recv_roundtrip` at the tokens ["A", "B"]. -/
theorem send_recv_roundtrip_witness :
    send ⟨[], true, true, []⟩ ["A", "B"] = Step.ok ⟨[], true, true, [] ++ frameOf ["A", "B"]⟩ ∧
    linesOf (frameOf ["A", "B"]) = (["A", "B"].map (fun t => t.data ++ ['\n'])) ++ [['.', '\n']] ∧
    recvFuel 3 ⟨frameOf ["A", "B"], true, true, []⟩ []
      = some (Step.ok (frameOf ["A", "B"], ⟨[], true, true, []⟩)) :=
  send_recv_roundtrip ["A", "B"] (by decide) true []

/-- C9 counterexample: the token "x\n." differs from "." yet its sent frame
contains two lines equal to ".", not exactly one terminating "." line. -/
theorem frame_boundary_cex :
    (("x\n." : String) ≠ ".") ∧
    (linesOf (frameOf ["x\n."])).count ['.', '\n'] = 2 := by
  decide

/-- C9 (amended: tokens must also contain no line break): every frame sent for
newline-free tokens none of which equals "." contains exactly one line equal to
".", and `recv` consumes its input exactly up to and including the first line
equal to "." — the bytes of any following frame are left untouched for the
next receive. -/
theorem frame_boundary (ts : List String)
    (h : ∀ t ∈ ts, '\n' ∉ t.data ∧ t.data ≠ ['.'])
    (ls : List String) (hls : ∀ t ∈ ls, '\n' ∉ t.data ∧ t.data ≠ ['.'])
    (rest buf : List Char) (re wo : Bool) (w : List Char) :
    (linesOf (frameOf ts)).count ['.', '\n'] = 1 ∧
    recvFuel (ls.length + 1) ⟨frameOf ls ++ rest, re, wo, w⟩ buf
      = some (Step.ok (buf ++ frameOf ls, ⟨rest, re, wo, w⟩)) := by
  refine ⟨?_, recvFuel_frame ls hls rest re wo w buf⟩
  rw [linesOf_frame ts (fun t ht => (h t ht).1), List.count_append]
  have h0 : (ts.map (fun t => t.data ++ ['\n'])).count ['.', '\n'] = 0 := by
    rw [List.count_eq_zero]
    intro hmem
    obtain ⟨t, ht, heq⟩ := List.mem_map.mp hmem
    exact (h t ht).2 (List.append_cancel_right heq)
  rw [h0]
  decide

/-- Concrete instance of `frame_boundary`: the LOGIN frame has one "." line and
a receive of "0 ok\n.\n" leaves the following byte untouched. -/
theorem frame_boundary_witness :
    (linesOf (frameOf ["LOGIN"])).count ['.', '\n'] = 1 ∧
    recvFuel 2 ⟨frameOf ["0 ok"] ++ ['X'], true, true, []⟩ []
      = some (Step.ok ([] ++ frameOf ["0 ok"], ⟨['X'], true, true, []⟩)) :=
  frame_boundary ["LOGIN"] (by decide) ["0 ok"] (by decide) ['X'] [] true true []

/-- C5 counterexample: on a stream whose underlying writes fail, `send` of a
small frame returns success (the buffered writer swallows the error at drop
time) instead of a transport error; and on a stream whose reads fail, `call`
and `recv_res` panic on the `.unwrap()` instead of returning the error. -/
theorem transport_error_cex :
    send ⟨[], true, false, []⟩ ["LOGOUT"] = Step.ok ⟨[], true, false, []⟩ ∧
    call 1 ⟨[], false, false, []⟩ ["LOGOUT"] = some Step.panicked ∧
    recv_res 1 ⟨[], false, true, []⟩ = some Step.panicked := by
  decide

/-- C5 (amended): `recv` does surface a read I/O failure to its caller as a
returned transport error; `send` returns success without surfacing a write
failure whenever the frame fits the buffered writer's 8192-byte capacity (the
final flush discards the error); and `recv_res` and `call` panic via
`.unwrap()` on the underlying transport error rather than returning it. -/
theorem transport_error_amended (c : Conn) (cmd : List String) (n : Nat) (buf : List Char)
    (hw : c.wok = false) (hsz : frameSize cmd ≤ 8192)
    (hr : c.reof = false) (hnl : '\n' ∉ c.rdata) (hn : 0 < n) :
    send c cmd = Step.ok c ∧
    recvFuel n c buf = some Step.ioErr ∧
    recv_res n c = some Step.panicked ∧
    call n c cmd = some Step.panicked := by
  have hsend : send c cmd = Step.ok c := by
    unfold send
    rw [hw]
    simp [hsz]
  have hread : readLine c = Step.ioErr := by
    unfold readLine
    rw [if_neg]
    simp [hnl, hr]
  have hrecv : ∀ b, recvFuel n c b = some Step.ioErr := by
    intro b
    obtain ⟨m, rfl⟩ : ∃ m, n = m + 1 := ⟨n - 1, by omega⟩
    rw [recvFuel, hread]
  have hres : recv_res n c = some Step.panicked := by
    unfold recv_res
    rw [hrecv []]
  have hcall : call n c cmd = some Step.panicked := by
    unfold call
    rw [hsend]
    exact hres
  exact ⟨hsend, hrecv buf, hres, hcall⟩

/-- Concrete instance of `transport_error_amended` on a stream holding the
unterminated byte "x" that then errors, with failing writes. -/
theorem transport_error_amended_witness :
    send ⟨['x'], false, false, []⟩ ["LOGIN"] = Step.ok ⟨['x'], false, false, []⟩ ∧
    recvFuel 1 ⟨['x'], false, false, []⟩ [] = some Step.ioErr ∧
    recv_res 1 ⟨['x'], false, false, []⟩ = some Step.panicked ∧
    call 1 ⟨['x'], false, false, []⟩ ["LOGIN"] = some Step.panicked :=
  transport_error_amended ⟨['x'], false, false, []⟩ ["LOGIN"] 1 [] rfl (by decide)
    rfl (by decide) (by decide)

theorem splitOn_no_sep (sep : Char) (l : List Char) (h : sep ∉ l) :
    splitOn sep l = [l] := by
  induction l with
  | nil => rfl
  | cons c cs ih =>
    have hc : c ≠ sep := fun hc => h (hc ▸ List.mem_cons_self c cs)
    have hcs : sep ∉ cs := fun hm => h (List.mem_cons_of_mem c hm)
    simp [splitOn, hc, ih hcs]

theorem splitOn_sep_append (sep : Char) (l : List Char) (h : sep ∉ l) (cs : List Char) :
    splitOn sep (l ++ sep :: cs) = l :: splitOn sep cs := by
  induction l with
  | nil => simp [splitOn]
  | cons c l ih =>
    have hc : c ≠ sep := fun hc => h (hc ▸ List.mem_cons_self c l)
    have hl : sep ∉ l := fun hm => h (List.mem_cons_of_mem c hm)
    simp [splitOn, hc, ih hl]

theorem parseOctet_repr : ∀ k : Fin 256, parseOctet (Nat.repr k.val).data = some k.val := by
  decide

theorem repr_no_dot : ∀ k : Fin 256, '.' ∉ (Nat.repr k.val).data := by
  decide

theorem parseIpv4_repr (a b c d : Fin 256) :
    parseIpv4 (Nat.repr a.val ++ "." ++ Nat.repr b.val ++ "." ++ Nat.repr c.val
        ++ "." ++ Nat.repr d.val)
      = some ⟨a.val, b.val, c.val, d.val⟩ := by
  unfold parseIpv4
  have hdata : (Nat.repr a.val ++ "." ++ Nat.repr b.val ++ "." ++ Nat.repr c.val
        ++ "." ++ Nat.repr d.val).data
      = (Nat.repr a.val).data
          ++ '.' :: ((Nat.repr b.val).data
            ++ '.' :: ((Nat.repr c.val).data ++ '.' :: (Nat.repr d.val).data)) := by
    simp [String.data_append]
  rw [hdata, splitOn_sep_append '.' _ (repr_no_dot a), splitOn_sep_append '.' _ (repr_no_dot b),
    splitOn_sep_append '.' _ (repr_no_dot c), splitOn_no_sep '.' _ (repr_no_dot d)]
  simp [parseOctet_repr a, parseOctet_repr b, parseOctet_repr c, parseOctet_repr d]

/-- C8: credential record construction.  A target-address text rejected by the
IPv4 parser (e.g. "999.1.1.1") makes `Information::new` fail with the address
parse error; every canonically written dotted quad with octets ≤ 255 (e.g.
"203.0.113.5") is accepted and the record stores the equivalent structured
`Ipv4Addr` value. -/
theorem information_new_spec (user pass host dom : String) :
    (∀ s : String, parseIpv4 s = none → Information.new user pass host dom s = none) ∧
    (∀ a b c d : Fin 256,
      Information.new user pass host dom
          (Nat.repr a.val ++ "." ++ Nat.repr b.val ++ "." ++ Nat.repr c.val
            ++ "." ++ Nat.repr d.val)
        = some ⟨user, pass, host, dom, ⟨a.val, b.val, c.val, d.val⟩⟩) ∧
    Information.new user pass host dom "999.1.1.1" = none ∧
    Information.new user pass host dom "203.0.113.5"
      = some ⟨user, pass, host, dom, ⟨203, 0, 113, 5⟩⟩ := by
  refine ⟨fun s hs => ?_, fun a b c d => ?_, ?_, ?_⟩
  · unfold Information.new
    rw [hs]
    rfl
  · unfold Information.new
    rw [parseIpv4_repr a b c d]
    rfl
  · unfold Information.new
    rw [show parseIpv4 "999.1.1.1" = none from by decide]
    rfl
  · unfold Information.new
    rw [show parseIpv4 "203.0.113.5" = some ⟨203, 0, 113, 5⟩ from by decide]
    rfl

/-- Concrete instance of `information_new_spec`: the two example addresses from
the specification. -/
theorem information_new_spec_witness :
    Information.new "u" "p" "h" "d" "999.1.1.1" = none ∧
    Information.new "u" "p" "h" "d" "203.0.113.5"
      = some ⟨"u", "p", "h", "d", ⟨203, 0, 113, 5⟩⟩ :=
  ⟨(information_new_spec "u" "p" "h" "d").1 "999.1.1.1" (by decide),
    (information_new_spec "u" "p" "h" "d").2.2.2⟩
